import Mathlib

/-!
Verification of the kubelet hunting module (`kube_hunter/modules/hunting/kubelet.py`).

The module is shallowly embedded: each Python function that the claims
depend on is translated into a Lean definition over explicit inputs
(HTTP responses become a `Response` record, transport errors and Python
exceptions become an `Except PyExc` result, generator `yield`s become
lists of `Finding`s paired with the exception, if any, that escaped or
was caught).  Python strings are modelled as `List Char` with faithful
models of the `str` operations the source uses (`split`, `startswith`,
`find`, slicing, `strip`, substring membership).
-/

/-- Exceptions that the modelled Python code can raise.  `transport`
stands for the `requests` transport-level exceptions (connection
refused, timeout, TLS error); the others are the builtin Python
exceptions the module's own code can raise. -/
inductive PyExc where
  | transport
  | valueError
  | typeError
  | keyError
deriving DecidableEq, Repr

/- ## Python string operations, modelled on `List Char` -/

/-- Model of Python `str.split(sep)` for a single-character separator
(the source only ever splits on "\n", "," and "="): splitting the empty
string gives `[""]`, adjacent separators give empty fields. -/
def splitCh (sep : Char) : List Char → List (List Char)
  | [] => [[]]
  | c :: cs =>
    if c = sep then [] :: splitCh sep cs
    else
      match splitCh sep cs with
      | [] => [[c]]
      | g :: gs => (c :: g) :: gs

/-- Model of Python `str.startswith` / prefix testing. -/
def isPrefixCh : List Char → List Char → Bool
  | [], _ => true
  | _ :: _, [] => false
  | a :: as, b :: bs => a = b && isPrefixCh as bs

/-- Helper for `findSub`: first index at or after `i` where `needle`
is a prefix of the remaining haystack, `-1` if none. -/
def findSubGo (needle : List Char) : List Char → Int → Int
  | [], i => if isPrefixCh needle [] then i else -1
  | c :: t, i => if isPrefixCh needle (c :: t) then i else findSubGo needle t (i + 1)

/-- Model of Python `str.find(sub)`: index of the first occurrence of
`needle` in `hay`, `-1` if absent. -/
def findSub (hay needle : List Char) : Int :=
  findSubGo needle hay 0

/-- Model of Python substring membership `sub in s`. -/
def containsSub (needle hay : List Char) : Bool :=
  0 ≤ findSub hay needle

/-- Normalise one Python slice index: negative indices count from the
end, and the result is clamped to `[0, n]`. -/
def pySliceIdx (n : Nat) (x : Int) : Nat :=
  let y := if x < 0 then x + n else x
  (max 0 (min y n)).toNat

/-- Model of Python slicing `s[a:b]` (with possibly negative bounds). -/
def pySlice (cs : List Char) (a b : Int) : List Char :=
  (cs.take (pySliceIdx cs.length b)).drop (pySliceIdx cs.length a)

/-- Model of Python `str.strip(chars)` for a single strip character:
removes every leading and trailing occurrence of `q`. -/
def stripChar (q : Char) (cs : List Char) : List Char :=
  ((cs.dropWhile (· = q)).reverse.dropWhile (· = q)).reverse

/- ## The pods-listing JSON model -/

/-- The `securityContext` object of a container spec; `privileged` is
`none` when the key is absent (Python `dict.get` returns `None`). -/
structure SecurityContext where
  privileged : Option Bool
deriving DecidableEq, Repr

/-- One entry of a pod's `spec.containers` array.  `securityContext`
is `none` when the key is absent (the source reads it with
`container.get("securityContext", {})`). -/
structure ContainerSpec where
  name : String
  securityContext : Option SecurityContext
deriving DecidableEq, Repr

/-- The `metadata` object of a pod item (`name` and `namespace`). -/
structure PodMetadata where
  name : String
  ns : String
deriving DecidableEq, Repr

/-- The `status` object of a pod item. -/
structure PodStatus where
  phase : String
deriving DecidableEq, Repr

/-- The `spec` object of a pod item. -/
structure PodSpec where
  containers : List ContainerSpec
deriving DecidableEq, Repr

/-- One element of the pods listing's `items` array. -/
structure PodItem where
  metadata : PodMetadata
  spec : PodSpec
  status : PodStatus
deriving DecidableEq, Repr

/-- The JSON document returned by `response.json()` on the pods-style
endpoints.  `items` is `none` when the parsed document has no
`"items"` key (indexing it then raises `KeyError`); `truthy` models
Python dict truthiness (`True` iff the dict is non-empty). -/
structure PodsJson where
  items : Option (List PodItem)
  truthy : Bool
deriving DecidableEq, Repr

/-- Model of Python `d["items"]` on a parsed pods document: raises
`KeyError` when the key is absent. -/
def getItems (d : PodsJson) : Except PyExc (List PodItem) :=
  match d.items with
  | some l => .ok l
  | none => .error .keyError

/- ## HTTP responses -/

instance {ε α : Type} [DecidableEq ε] [DecidableEq α] : DecidableEq (Except ε α) := fun a b =>
  match a, b with
  | .ok x, .ok y =>
    if h : x = y then .isTrue (by rw [h]) else .isFalse (by simp [h])
  | .error x, .error y =>
    if h : x = y then .isTrue (by rw [h]) else .isFalse (by simp [h])
  | .ok _, .error _ => .isFalse (by simp)
  | .error _, .ok _ => .isFalse (by simp)

/-- An HTTP response as the module observes it: status code, raw body
text, and the result of `response.json()` when the body is requested
as a pods-style document (`.error` models a JSON parse failure, which
raises in Python). -/
structure Response where
  status_code : Nat
  text : String
  jsonResult : Except PyExc PodsJson
deriving DecidableEq, Repr

/-- Python truthiness of a value that is either a `str` or `False`
(`Option String` here, `none` standing for `False`): truthy iff it is
a non-empty string.  Used for `if healthz:` and `if cmdline:`. -/
def truthyStrOrFalse : Option String → Bool
  | none => false
  | some s => s ≠ ""

/- ## The Finding model

The Python module publishes subclasses of the external base class
`Vulnerability` (from `kube_hunter.core.types`, outside this slice).
Following the spec's design note, the class hierarchy is modelled as
one record with a tagged-union payload: each subclass of the source
becomes one `Payload` constructor that carries exactly the fields that
subclass stores on itself. -/

/-- The `component` argument of the Finding constructors. -/
inductive Component where
  | Kubelet
  | KubernetesCluster
deriving DecidableEq, Repr

/-- The `category` argument of the Finding constructors. -/
inductive Category where
  | InformationDisclosure
  | RemoteCodeExec
  | AccessRisk
deriving DecidableEq, Repr

/-- Variant-specific payload: one constructor per Finding class of the
source, carrying the fields that class stores on the instance
(`self.pods`, `self.count`, `self.status`, `self.containers`,
`self.cmdline`); classes that store nothing become nullary markers.
`k8sVersionDisclosure` mirrors the external `K8sVersionDisclosure`
event class's constructor arguments. -/
inductive Payload where
  | exposedPods (pods : List PodItem)
  | anonymousAuth
  | exposedContainerLogs
  | exposedRunningPods (count : Nat)
  | exposedExec
  | exposedRun
  | exposedPortForward
  | exposedAttach
  | exposedHealthz (status : String)
  | privilegedContainers (containers : List (String × String))
  | exposedSystemLogs
  | exposedKubeletCmdline (cmdline : String)
  | k8sVersionDisclosure (version : String) (from_endpoint : String) (extra_info : String)
deriving DecidableEq, Repr

/-- Modelled from the spec: the Finding record of the external base
class `Vulnerability` (`kube_hunter.core.types`, not part of this
slice) — name, affected component, risk category, optional stable
identifier, free-form evidence "populated at discovery time" only when
the subclass constructor passes it (otherwise absent), plus the
variant-specific payload. -/
structure Finding where
  name : String
  component : Component
  category : Category
  vid : Option String
  evidence : Option String
  payload : Payload
deriving DecidableEq, Repr

/-- `ExposedPodsHandler(pods)` of the source. -/
def exposedPodsHandlerF (pods : List PodItem) : Finding :=
  { name := "Exposed Pods", component := .Kubelet, category := .InformationDisclosure,
    vid := none, evidence := some ("count: " ++ toString pods.length),
    payload := .exposedPods pods }

/-- `AnonymousAuthEnabled()` of the source. -/
def anonymousAuthEnabledF : Finding :=
  { name := "Anonymous Authentication", component := .Kubelet, category := .RemoteCodeExec,
    vid := some "KHV036", evidence := none, payload := .anonymousAuth }

/-- `ExposedContainerLogsHandler()` of the source. -/
def exposedContainerLogsHandlerF : Finding :=
  { name := "Exposed Container Logs", component := .Kubelet, category := .InformationDisclosure,
    vid := some "KHV037", evidence := none, payload := .exposedContainerLogs }

/-- `ExposedRunningPodsHandler(count)` of the source. -/
def exposedRunningPodsHandlerF (count : Nat) : Finding :=
  { name := "Exposed Running Pods", component := .Kubelet, category := .InformationDisclosure,
    vid := some "KHV038", evidence := some (toString count ++ " running pods"),
    payload := .exposedRunningPods count }

/-- `ExposedExecHandler()` of the source. -/
def exposedExecHandlerF : Finding :=
  { name := "Exposed Exec On Container", component := .Kubelet, category := .RemoteCodeExec,
    vid := some "KHV039", evidence := none, payload := .exposedExec }

/-- `ExposedRunHandler()` of the source. -/
def exposedRunHandlerF : Finding :=
  { name := "Exposed Run Inside Container", component := .Kubelet, category := .RemoteCodeExec,
    vid := some "KHV040", evidence := none, payload := .exposedRun }

/-- `ExposedPortForwardHandler()` of the source. -/
def exposedPortForwardHandlerF : Finding :=
  { name := "Exposed Port Forward", component := .Kubelet, category := .RemoteCodeExec,
    vid := some "KHV041", evidence := none, payload := .exposedPortForward }

/-- `ExposedAttachHandler()` of the source. -/
def exposedAttachHandlerF : Finding :=
  { name := "Exposed Attaching To Container", component := .Kubelet, category := .RemoteCodeExec,
    vid := some "KHV042", evidence := none, payload := .exposedAttach }

/-- `ExposedHealthzHandler(status)` of the source. -/
def exposedHealthzHandlerF (status : String) : Finding :=
  { name := "Cluster Health Disclosure", component := .Kubelet, category := .InformationDisclosure,
    vid := some "KHV043", evidence := some ("status: " ++ status),
    payload := .exposedHealthz status }

/-- `PrivilegedContainers(containers)` of the source.  The source
formats `containers[0]` into the evidence; every call site guards the
argument to be non-empty (Python would raise `IndexError` on an empty
list), which `headD` reflects. -/
def privilegedContainersF (containers : List (String × String)) : Finding :=
  { name := "Privileged Container", component := .KubernetesCluster, category := .AccessRisk,
    vid := some "KHV044",
    evidence := some ("pod: " ++ (containers.headD ("", "")).1 ++ ", container: "
      ++ (containers.headD ("", "")).2 ++ ", count: " ++ toString containers.length),
    payload := .privilegedContainers containers }

/-- `ExposedSystemLogs()` of the source. -/
def exposedSystemLogsF : Finding :=
  { name := "Exposed System Logs", component := .Kubelet, category := .InformationDisclosure,
    vid := some "KHV045", evidence := none, payload := .exposedSystemLogs }

/-- `ExposedKubeletCmdline(cmdline)` of the source. -/
def exposedKubeletCmdlineF (cmdline : String) : Finding :=
  { name := "Exposed Kubelet Cmdline", component := .Kubelet, category := .InformationDisclosure,
    vid := some "KHV046", evidence := some ("cmdline: " ++ cmdline),
    payload := .exposedKubeletCmdline cmdline }

/-- Modelled from the spec: the external `K8sVersionDisclosure` event
(`kube_hunter.core.events`, not part of this slice) — a version
disclosure finding carrying the version, the endpoint it came from and
extra info; the spec does not state any evidence text for it. -/
def k8sVersionDisclosureF (version from_endpoint extra_info : String) : Finding :=
  { name := "K8s Version Disclosure", component := .KubernetesCluster,
    category := .InformationDisclosure, vid := none, evidence := none,
    payload := .k8sVersionDisclosure version from_endpoint extra_info }

/-- Whether a payload variant carries variant-specific data, i.e.
whether the payload is "populated meaningfully for its variant" in the
sense of the spec's invariant. -/
def payloadPopulated : Payload → Bool
  | .exposedPods _ => true
  | .exposedRunningPods _ => true
  | .exposedHealthz _ => true
  | .privilegedContainers _ => true
  | .exposedKubeletCmdline _ => true
  | .k8sVersionDisclosure _ _ _ => true
  | _ => false

/-- Recogniser for the health finding variant. -/
def isHealthzF (f : Finding) : Bool :=
  match f.payload with
  | .exposedHealthz _ => true
  | _ => false

/-- Recogniser for the privileged-containers finding variant. -/
def isPrivilegedF (f : Finding) : Bool :=
  match f.payload with
  | .privilegedContainers _ => true
  | _ => false

/- ## ReadOnlyKubeletPortHunter -/

/-- The inner label loop of `get_k8s_version`: for each `info` in the
comma-separated label text, `k, v = info.split("=")` (a `ValueError`
unless the split yields exactly two parts), then return
`v.strip('"')` when `k == "gitVersion"`. -/
def labelLoop : List (List Char) → Except PyExc (Option String)
  | [] => .ok none
  | info :: rest =>
    match splitCh '=' info with
    | [k, v] =>
      if k = "gitVersion".data then .ok (some (String.mk (stripChar '"' v)))
      else labelLoop rest
    | _ => .error .valueError

/-- One matching line of `get_k8s_version`: the labels are the text of
`line[line.find("{") + 1 : line.find("}")]` split on commas. -/
def parseBuildInfoLine (line : List Char) : Except PyExc (Option String) :=
  labelLoop (splitCh ',' (pySlice line (findSub line [Char.ofNat 123] + 1) (findSub line [Char.ofNat 125])))

/-- The outer line loop of `get_k8s_version`: scan the lines for one
starting with `kubernetes_build_info`; a matching line that yields no
`gitVersion` label (without raising) falls through to later lines. -/
def k8sVersionLoop : List (List Char) → Except PyExc (Option String)
  | [] => .ok none
  | line :: rest =>
    if isPrefixCh "kubernetes_build_info".data line then
      match parseBuildInfoLine line with
      | .error e => .error e
      | .ok (some v) => .ok (some v)
      | .ok none => k8sVersionLoop rest
    else k8sVersionLoop rest

/-- `ReadOnlyKubeletPortHunter.get_k8s_version`, as a function of the
fetched metrics text (`metrics.split("\n")` then the line loop). -/
def get_k8s_version (metrics : String) : Except PyExc (Option String) :=
  k8sVersionLoop (splitCh '\n' metrics.data)

/-- `get_k8s_version` including the metrics fetch: a transport error
on the fetch propagates. -/
def ro_get_k8s_version (metrics_resp : Except PyExc Response) : Except PyExc (Option String) := do
  let r ← metrics_resp
  get_k8s_version r.text

/-- Truthiness of `container.get("securityContext", {}).get("privileged")`:
truthy iff the security context is present and declares `privileged: true`. -/
def privTruthy (c : ContainerSpec) : Bool :=
  match c.securityContext with
  | none => false
  | some sc => sc.privileged = some true

/-- The list built by the loop of `find_privileged_containers`: for
every pod, then for every container of that pod (pod-then-container
order), the pair `(pod.metadata.name, container.name)` when the
container's security context declares privileged. -/
def privList (items : List PodItem) : List (String × String) :=
  items.flatMap fun pod =>
    pod.spec.containers.filterMap fun c =>
      if privTruthy c then some (pod.metadata.name, c.name) else none

/-- `ReadOnlyKubeletPortHunter.find_privileged_containers`: skipped
when `self.pods_endpoint_data` is falsy; otherwise indexes `"items"`
(a possible `KeyError`) and collects the privileged pairs, returning
`None` for an empty collection. -/
def ro_find_privileged_containers (ped : Option PodsJson) : Except PyExc (Option (List (String × String))) :=
  match ped with
  | none => .ok none
  | some d =>
    if d.truthy then do
      let items ← getItems d
      let l := privList items
      return (if l.length > 0 then some l else none)
    else .ok none

/-- `get_pods_endpoint` (same logic in both hunters): fetch `/pods`;
only when the raw body contains the substring `"items"` is the body
parsed as JSON (`response.json()`, which can raise) and returned;
otherwise the function returns `None`. -/
def get_pods_endpoint (pods_resp : Except PyExc Response) : Except PyExc (Option PodsJson) := do
  let r ← pods_resp
  if containsSub "items".data r.text.data then
    match r.jsonResult with
    | .error e => .error e
    | .ok j => return (some j)
  else
    return none

/-- `check_healthz_endpoint` (same logic in both hunters): the body
text when the status is 200, Python `False` (here `none`) otherwise. -/
def check_healthz_endpoint (healthz_resp : Except PyExc Response) : Except PyExc (Option String) := do
  let r ← healthz_resp
  return (if r.status_code = 200 then some r.text else none)

/-- Python truthiness of `self.pods_endpoint_data` (either `None` or a
parsed dict, whose truthiness is `PodsJson.truthy`). -/
def truthyPed : Option PodsJson → Bool
  | none => false
  | some d => d.truthy

/-- The final `yield ExposedPodsHandler(pods=self.pods_endpoint_data["items"])`
step: guarded by dict truthiness, and the `"items"` index can raise. -/
def step_exposed_pods (ped : Option PodsJson) : Except PyExc (List Finding) :=
  match ped with
  | none => .ok []
  | some d =>
    if d.truthy then do
      let items ← getItems d
      return [exposedPodsHandlerF items]
    else .ok []

/-- Findings of the `if k8s_version:` yield (truthiness of a value
that is `None` or a string). -/
def versionFindings (kv : Option String) : List Finding :=
  if truthyStrOrFalse kv then [k8sVersionDisclosureF (kv.getD "") "/metrics" "on Kubelet"] else []

/-- Findings of the `if privileged_containers:` yield (truthiness of a
value that is `None` or a list). -/
def privFindings (priv : Option (List (String × String))) : List Finding :=
  match priv with
  | none => []
  | some cs => if cs.isEmpty then [] else [privilegedContainersF cs]

/-- Findings of the `if healthz:` yield. -/
def healthzFindings (healthz : Option String) : List Finding :=
  if truthyStrOrFalse healthz then [exposedHealthzHandlerF (healthz.getD "")] else []

/-- `ReadOnlyKubeletPortHunter.execute` as a generator: the four
fetch/compute statements run first, in order, and an exception in any
of them escapes before anything is yielded; then the four conditional
yields run in order (version, privileged containers, healthz, pods),
the last of which can itself raise after the earlier findings were
already delivered.  The result is the list of findings delivered to
the consumer together with the exception that escaped, if any. -/
def readonly_execute (pods_resp metrics_resp healthz_resp : Except PyExc Response) :
    List Finding × Option PyExc :=
  match get_pods_endpoint pods_resp with
  | .error e => ([], some e)
  | .ok ped =>
    match ro_get_k8s_version metrics_resp with
    | .error e => ([], some e)
    | .ok kv =>
      match ro_find_privileged_containers ped with
      | .error e => ([], some e)
      | .ok priv =>
        match check_healthz_endpoint healthz_resp with
        | .error e => ([], some e)
        | .ok healthz =>
          let fs := versionFindings kv ++ privFindings priv ++ healthzFindings healthz
          match step_exposed_pods ped with
          | .error e => (fs, some e)
          | .ok fs4 => (fs ++ fs4, none)

/- ## SecureKubeletPortHunter -/

/-- The `SecureKubeletEvent` consumed by the secure-port hunter (from
the discovery layer), with the fields the hunter reads. -/
structure SecureKubeletEvent where
  host : String
  port : Nat
  secure : Bool
  auth_token : String
  anonymous_auth : Bool
deriving DecidableEq, Repr

/-- The pod/container probing target built by `get_random_pod` (and
the hard-coded `self.kubehunter_pod`). -/
structure ProbeTarget where
  name : String
  container : String
  pod_namespace : String
deriving DecidableEq, Repr

/-- `self.kubehunter_pod` of the source. -/
def kubehunterPod : ProbeTarget :=
  { name := "kube-hunter", container := "kube-hunter", pod_namespace := "default" }

/-- `self.path` as assigned in `SecureKubeletPortHunter.__init__`: the
assigned string literal is a plain (non-f) string, so the braces and
their contents are part of the value and no interpolation happens. -/
def skPath (_event : SecureKubeletEvent) : String :=
  "https://\x7bself.event.host\x7d:10250"

/-- URL of the secure hunter's pods fetch: `f"{self.path}/pods"`. -/
def skPodsUrl (event : SecureKubeletEvent) : String :=
  skPath event ++ "/pods"

/-- URL of the secure hunter's healthz fetch: `f"{self.path}/healthz"`. -/
def skHealthzUrl (event : SecureKubeletEvent) : String :=
  skPath event ++ "/healthz"

/-- URL of the container-logs probe: `self.path +
KubeletHandlers.CONTAINERLOGS.value.format(...)` with the target's
namespace, pod and container substituted into the template
`containerLogs/.../.../...`. -/
def containerLogsUrl (event : SecureKubeletEvent) (pod : ProbeTarget) : String :=
  skPath event ++ "containerLogs/" ++ pod.pod_namespace ++ "/" ++ pod.name ++ "/" ++ pod.container

/-- URL of the exec probe: template
`exec/.../.../...?command=...&input=1&output=1&tty=1` with `cmd=""`. -/
def execUrl (event : SecureKubeletEvent) (pod : ProbeTarget) : String :=
  skPath event ++ "exec/" ++ pod.pod_namespace ++ "/" ++ pod.name ++ "/" ++ pod.container
    ++ "?command=&input=1&output=1&tty=1"

/-- URL of the port-forward probe: template
`portForward/.../...?port=...` with `port=80`. -/
def portForwardUrl (event : SecureKubeletEvent) (pod : ProbeTarget) : String :=
  skPath event ++ "portForward/" ++ pod.pod_namespace ++ "/" ++ pod.name ++ "?port=80"

/-- URL of the run probe: template `run/.../.../...?cmd=...` with the
literal `test` placeholders and `cmd=""` used by the source. -/
def runUrl (event : SecureKubeletEvent) : String :=
  skPath event ++ "run/test/test/test?cmd="

/-- URL of the running-pods probe: template `runningpods`. -/
def runningPodsUrl (event : SecureKubeletEvent) : String :=
  skPath event ++ "runningpods"

/-- URL of the attach probe: template
`attach/.../.../...?command=...&input=1&output=1&tty=1` with `cmd=""`. -/
def attachUrl (event : SecureKubeletEvent) (pod : ProbeTarget) : String :=
  skPath event ++ "attach/" ++ pod.pod_namespace ++ "/" ++ pod.name ++ "/" ++ pod.container
    ++ "?command=&input=1&output=1&tty=1"

/-- URL of the filesystem-logs probe: template `logs/...` with
`path=""`. -/
def logsUrl (event : SecureKubeletEvent) : String :=
  skPath event ++ "logs/"

/-- URL of the pprof-cmdline probe: template `debug/pprof/cmdline`. -/
def pprofCmdlineUrl (event : SecureKubeletEvent) : String :=
  skPath event ++ "debug/pprof/cmdline"

/- ### DebugHandlers probe methods

Each probe performs one HTTP request; its input is the outcome of that
request (`.error` for a raised transport error). -/

/-- `DebugHandlers.test_container_logs`: positive iff the status is 200. -/
def test_container_logs (resp : Except PyExc Response) : Except PyExc Bool := do
  let r ← resp
  return (r.status_code = 200)

/-- `DebugHandlers.test_exec_container`: positive iff the body
contains the marker `/cri/exec/`. -/
def test_exec_container (resp : Except PyExc Response) : Except PyExc Bool := do
  let r ← resp
  return (containsSub "/cri/exec/".data r.text.data)

/-- `DebugHandlers.test_port_forward`: performs the request, compares
the status against 200, but discards the comparison and falls off the
end of the function, returning Python `None` (`none` here). -/
def test_port_forward (resp : Except PyExc Response) : Except PyExc (Option Bool) := do
  let r ← resp
  let _ := r.status_code = 200
  return none

/-- `DebugHandlers.test_run_container`: positive iff the status is
exactly 405 (Method Not Allowed). -/
def test_run_container (resp : Except PyExc Response) : Except PyExc Bool := do
  let r ← resp
  return (r.status_code = 405)

/-- `DebugHandlers.test_running_pods`: the parsed JSON body on a 200
(parsing can raise), Python `False` (`none` here) otherwise. -/
def test_running_pods (resp : Except PyExc Response) : Except PyExc (Option PodsJson) := do
  let r ← resp
  if r.status_code = 200 then
    match r.jsonResult with
    | .error e => .error e
    | .ok j => return (some j)
  else
    return none

/-- `DebugHandlers.test_attach_container`: positive iff the body
contains the marker `/cri/attach/`. -/
def test_attach_container (resp : Except PyExc Response) : Except PyExc Bool := do
  let r ← resp
  return (containsSub "/cri/attach/".data r.text.data)

/-- `DebugHandlers.test_logs_endpoint`: positive iff the body contains
the marker `<pre>`. -/
def test_logs_endpoint (resp : Except PyExc Response) : Except PyExc Bool := do
  let r ← resp
  return (containsSub "<pre>".data r.text.data)

/-- `DebugHandlers.test_pprof_cmdline`: the body text on a 200,
Python `None` otherwise. -/
def test_pprof_cmdline (resp : Except PyExc Response) : Except PyExc (Option String) := do
  let r ← resp
  return (if r.status_code = 200 then some r.text else none)

/- ### The battery of `test_handlers` -/

/-- The per-probe responses one battery run observes, in the order the
probes are called inside the `try` block of `test_handlers`. -/
structure BatteryResponses where
  running_pods : Except PyExc Response
  pprof_cmdline : Except PyExc Response
  container_logs : Except PyExc Response
  exec_probe : Except PyExc Response
  run_probe : Except PyExc Response
  port_forward : Except PyExc Response
  attach_probe : Except PyExc Response
  logs_probe : Except PyExc Response
deriving DecidableEq, Repr

/-- Battery step 1: `running_pods = debug_handlers.test_running_pods()`
then `if running_pods: yield ExposedRunningPodsHandler(count=len(running_pods["items"]))`
(the `"items"` index can raise `KeyError`). -/
def step_running_pods (rs : BatteryResponses) : Except PyExc (List Finding) := do
  let rp ← test_running_pods rs.running_pods
  match rp with
  | some j =>
    if j.truthy then do
      let items ← getItems j
      return [exposedRunningPodsHandlerF items.length]
    else return []
  | none => return []

/-- Battery step 2: `cmdline = debug_handlers.test_pprof_cmdline()`
then `if cmdline: yield ExposedKubeletCmdline(cmdline=cmdline)`. -/
def step_pprof_cmdline (rs : BatteryResponses) : Except PyExc (List Finding) := do
  let c ← test_pprof_cmdline rs.pprof_cmdline
  return (if truthyStrOrFalse c then [exposedKubeletCmdlineF (c.getD "")] else [])

/-- Battery step 3: `if debug_handlers.test_container_logs(): yield ExposedContainerLogsHandler()`. -/
def step_container_logs (rs : BatteryResponses) : Except PyExc (List Finding) := do
  let b ← test_container_logs rs.container_logs
  return (if b then [exposedContainerLogsHandlerF] else [])

/-- Battery step 4: `if debug_handlers.test_exec_container(): yield ExposedExecHandler()`. -/
def step_exec (rs : BatteryResponses) : Except PyExc (List Finding) := do
  let b ← test_exec_container rs.exec_probe
  return (if b then [exposedExecHandlerF] else [])

/-- Battery step 5: `if debug_handlers.test_run_container(): yield ExposedRunHandler()`. -/
def step_run (rs : BatteryResponses) : Except PyExc (List Finding) := do
  let b ← test_run_container rs.run_probe
  return (if b then [exposedRunHandlerF] else [])

/-- Battery step 6: `if debug_handlers.test_port_forward(): yield ExposedPortForwardHandler()`
(the probe returns `None`, which is falsy). -/
def step_port_forward (rs : BatteryResponses) : Except PyExc (List Finding) := do
  let b ← test_port_forward rs.port_forward
  return (match b with
    | some true => [exposedPortForwardHandlerF]
    | _ => [])

/-- Battery step 7: `if debug_handlers.test_attach_container(): yield ExposedAttachHandler()`. -/
def step_attach (rs : BatteryResponses) : Except PyExc (List Finding) := do
  let b ← test_attach_container rs.attach_probe
  return (if b then [exposedAttachHandlerF] else [])

/-- Battery step 8: `if debug_handlers.test_logs_endpoint(): yield ExposedSystemLogs()`. -/
def step_logs (rs : BatteryResponses) : Except PyExc (List Finding) := do
  let b ← test_logs_endpoint rs.logs_probe
  return (if b then [exposedSystemLogsF] else [])

/-- Generator semantics of a `try` block running yield-producing steps
in order: the findings yielded before the first exception are kept;
the exception itself is caught by the surrounding `except`, so the
steps after it never run. -/
def collectUntilErr : List (Except PyExc (List Finding)) → List Finding
  | [] => []
  | .error _ :: _ => []
  | .ok fs :: rest => fs ++ collectUntilErr rest

/-- `is_default_pod` of `get_random_pod`. -/
def is_default_pod (pod : PodItem) : Bool :=
  pod.metadata.ns = "default" && pod.status.phase = "Running"

/-- `is_kubesystem_pod` of `get_random_pod`. -/
def is_kubesystem_pod (pod : PodItem) : Bool :=
  pod.metadata.ns = "kube-system" && pod.status.phase = "Running"

/-- `SecureKubeletPortHunter.get_random_pod`: guarded by truthiness of
`self.pods_endpoint_data`, indexes `"items"` (a possible `KeyError`),
picks the first Running `default`-namespace pod, else the first
Running `kube-system` pod; when a pod is found, the source evaluates
`next(pod_data["spec"]["containers"], None)` — `next` applied to a
list, which is not an iterator, so Python raises `TypeError` before
any target is built; with no matching pod the function returns `None`. -/
def get_random_pod (ped : Option PodsJson) : Except PyExc (Option ProbeTarget) :=
  match ped with
  | none => .ok none
  | some d =>
    if d.truthy then do
      let pods_data ← getItems d
      let pod_data :=
        match pods_data.find? is_default_pod with
        | some p => some p
        | none => pods_data.find? is_kubesystem_pod
      match pod_data with
      | some _ => .error .typeError
      | none => return none
    else .ok none

/-- Modelled from the spec: the Pod Selector of §4.3 (the behaviour
`get_random_pod` was written to have) — first Running pod in the
`default` namespace, else first Running pod in `kube-system`, then the
first container declared on the chosen pod; no target when nothing
matches. -/
def spec_get_random_pod (pods_data : List PodItem) : Option ProbeTarget :=
  let pod_data :=
    match pods_data.find? is_default_pod with
    | some p => some p
    | none => pods_data.find? is_kubesystem_pod
  match pod_data with
  | some pd =>
    match pd.spec.containers.head? with
    | some c => some { name := pd.metadata.name, container := c.name, pod_namespace := pd.metadata.ns }
    | none => none
  | none => none

/-- `SecureKubeletPortHunter.test_handlers`: the target is the
hard-coded kube-hunter pod when `config.pod` is set, else the result
of `get_random_pod` (whose `TypeError` is raised *outside* the `try`
and escapes the generator); with no target the battery is skipped;
otherwise the eight probe steps run inside one `try`, so the findings
yielded before the first exception are delivered and the exception is
swallowed. -/
def test_handlers (config_pod : Bool) (ped : Option PodsJson) (rs : BatteryResponses) :
    Except PyExc (List Finding) := do
  let pod ← if config_pod then pure (some kubehunterPod) else get_random_pod ped
  match pod with
  | none => return []
  | some _ =>
    return collectUntilErr
      [step_running_pods rs, step_pprof_cmdline rs, step_container_logs rs, step_exec rs,
       step_run rs, step_port_forward rs, step_attach rs, step_logs rs]

/-- `SecureKubeletPortHunter.execute` as a generator: the
anonymous-auth finding is yielded first (before any fetch); then the
pods and healthz fetches run (an exception escapes, keeping only the
findings already yielded); then the conditional pods and healthz
yields (the pods yield indexes `"items"` and can raise); finally
`yield from self.test_handlers()` (whose escaping exception, if any,
also ends the generator). -/
def secure_execute (event : SecureKubeletEvent) (pods_resp healthz_resp : Except PyExc Response)
    (config_pod : Bool) (rs : BatteryResponses) : List Finding × Option PyExc :=
  let anonF := if event.anonymous_auth then [anonymousAuthEnabledF] else []
  match get_pods_endpoint pods_resp with
  | .error e => (anonF, some e)
  | .ok ped =>
    match check_healthz_endpoint healthz_resp with
    | .error e => (anonF, some e)
    | .ok healthz =>
      match step_exposed_pods ped with
      | .error e => (anonF, some e)
      | .ok podsF =>
        let hzF := healthzFindings healthz
        match test_handlers config_pod ped rs with
        | .error e => (anonF ++ podsF ++ hzF, some e)
        | .ok batteryF => (anonF ++ podsF ++ hzF ++ batteryF, none)

/- ## ProveSystemLogs -/

/-- A `\w` word character of the source's regex (ASCII range: letter,
digit or underscore; the logs the module decodes are ASCII audit
records). -/
def isWordChar (c : Char) : Bool :=
  c.isAlphanum || c = '_'

/-- The literal part of the pattern `proctitle=(\w+)`. -/
def proctitleEq : List Char :=
  "proctitle=".data

/-- Scanning loop of `re.findall(r"proctitle=(\w+)", audit_logs)`:
`skip` is the number of remaining positions lying inside the previous
match (matches do not overlap, so no match attempt is made there).  At
a position open for matching, the pattern matches iff the literal
`proctitle=` is present followed by at least one word character, the
captured group being the maximal word-character run; on failure
scanning advances one character. -/
def findallGo : List Char → Nat → List (List Char)
  | [], _ => []
  | _ :: cs, skip + 1 => findallGo cs skip
  | c :: cs, 0 =>
    let w := ((c :: cs).drop 10).takeWhile isWordChar
    if isPrefixCh proctitleEq (c :: cs) && (w ≠ []) then
      w :: findallGo cs (10 + w.length - 1)
    else
      findallGo cs 0

/-- Model of `re.findall(r"proctitle=(\w+)", audit_logs)`: scan left
to right, collecting every captured group of a non-overlapping match. -/
def findallProctitles (cs : List Char) : List (List Char) :=
  findallGo cs 0

/-- Value of one hexadecimal digit, `none` for a non-hex character. -/
def hexDigitVal (c : Char) : Option Nat :=
  if '0' ≤ c ∧ c ≤ '9' then some (c.toNat - '0'.toNat)
  else if 'a' ≤ c ∧ c ≤ 'f' then some (c.toNat - 'a'.toNat + 10)
  else if 'A' ≤ c ∧ c ≤ 'F' then some (c.toNat - 'A'.toNat + 10)
  else none

/-- Model of `bytes.fromhex`: consume the characters two at a time; a
non-hex digit or an odd number of digits raises `ValueError`. -/
def bytesFromHex : List Char → Except PyExc (List Nat)
  | [] => .ok []
  | [_] => .error .valueError
  | a :: b :: rest =>
    match hexDigitVal a, hexDigitVal b with
    | some x, some y => do
      let tl ← bytesFromHex rest
      return ((x * 16 + y) :: tl)
    | _, _ => .error .valueError

/-- Whether a byte is a UTF-8 continuation byte (`0x80`–`0xBF`). -/
def isContByte (b : Nat) : Bool :=
  0x80 ≤ b && b ≤ 0xBF

/-- Model of `bytes.decode("utf-8")` (strict): standard UTF-8 decoding
with the usual rejection of truncated sequences, stray continuation
bytes, overlong encodings, surrogates and values above `U+10FFFF`;
Python raises `UnicodeDecodeError` (a `ValueError`) on invalid input. -/
def utf8Decode : List Nat → Except PyExc (List Char)
  | [] => .ok []
  | b :: bs =>
    if b ≤ 0x7F then do
      let tl ← utf8Decode bs
      return (Char.ofNat b :: tl)
    else if 0xC2 ≤ b ∧ b ≤ 0xDF then
      match bs with
      | b2 :: rest =>
        if isContByte b2 then do
          let tl ← utf8Decode rest
          return (Char.ofNat ((b - 0xC0) * 0x40 + (b2 - 0x80)) :: tl)
        else .error .valueError
      | _ => .error .valueError
    else if 0xE0 ≤ b ∧ b ≤ 0xEF then
      match bs with
      | b2 :: b3 :: rest =>
        let lo2 := if b = 0xE0 then 0xA0 else 0x80
        let hi2 := if b = 0xED then 0x9F else 0xBF
        if (lo2 ≤ b2 && b2 ≤ hi2) && isContByte b3 then do
          let tl ← utf8Decode rest
          return (Char.ofNat ((b - 0xE0) * 0x1000 + (b2 - 0x80) * 0x40 + (b3 - 0x80)) :: tl)
        else .error .valueError
      | _ => .error .valueError
    else if 0xF0 ≤ b ∧ b ≤ 0xF4 then
      match bs with
      | b2 :: b3 :: b4 :: rest =>
        let lo2 := if b = 0xF0 then 0x90 else 0x80
        let hi2 := if b = 0xF4 then 0x8F else 0xBF
        if (lo2 ≤ b2 && b2 ≤ hi2) && isContByte b3 && isContByte b4 then do
          let tl ← utf8Decode rest
          return (Char.ofNat ((b - 0xF0) * 0x40000 + (b2 - 0x80) * 0x1000 + (b3 - 0x80) * 0x40 + (b4 - 0x80)) :: tl)
        else .error .valueError
      | _ => .error .valueError
    else .error .valueError

/-- Model of `.replace("\x00", " ")` on a decoded string: both the
needle and the replacement are single characters, so the replacement
acts character-wise. -/
def replaceNulSpace (cs : List Char) : List Char :=
  cs.map fun c => if c = '\x00' then ' ' else c

/-- Decoding of one captured `proctitle` group:
`bytes.fromhex(proctitle).decode("utf-8").replace("\x00", " ")`. -/
def decodeProctitle (w : List Char) : Except PyExc String := do
  let bs ← bytesFromHex w
  let cs ← utf8Decode bs
  return (String.mk (replaceNulSpace cs))

/-- Lowercase hexadecimal digits of a byte, as used by Python string
escapes. -/
def hexByte (n : Nat) : List Char :=
  let dig := fun (d : Nat) => if d < 10 then Char.ofNat ('0'.toNat + d) else Char.ofNat ('a'.toNat + d - 10)
  [dig (n / 16 % 16), dig (n % 16)]

/-- Model of Python `repr` escaping of one character inside a quoted
string literal with quote character `q` (ASCII scope: characters at
and above `0x80` are rendered as themselves, as `repr` does for
printable text). -/
def pyReprChar (q : Char) (c : Char) : List Char :=
  if c = '\\' then ['\\', '\\']
  else if c = q then ['\\', q]
  else if c = '\n' then ['\\', 'n']
  else if c = '\r' then ['\\', 'r']
  else if c = '\t' then ['\\', 't']
  else if c.toNat < 0x20 ∨ c.toNat = 0x7f then '\\' :: 'x' :: hexByte c.toNat
  else [c]

/-- Model of Python `repr` of one string: single-quoted, unless the
string contains a single quote and no double quote, in which case it
is double-quoted. -/
def pyReprStr (s : String) : String :=
  let q := if s.data.contains (Char.ofNat 39) && !s.data.contains '"' then '"' else Char.ofNat 39
  String.mk (q :: s.data.flatMap (pyReprChar q) ++ [q])

/-- Model of Python `repr` of a list of strings, as interpolated by
the f-string `f"audit log: {proctitles}"`. -/
def pyReprStrList (l : List String) : String :=
  "[" ++ String.intercalate ", " (l.map pyReprStr) ++ "]"

/-- `ProveSystemLogs.execute` as a function of the audit-log fetch
outcome: find every `proctitle=(\w+)` capture, decode each one (a
decoding error raises, leaving the event's `proctitles` and `evidence`
unassigned), then attach the decoded list as `self.event.proctitles`
and the f-string `f"audit log: {proctitles}"` as `self.event.evidence`. -/
def prove_system_logs_execute (audit_resp : Except PyExc Response) :
    Except PyExc (List String × String) := do
  let r ← audit_resp
  let proctitles ← (findallProctitles r.text.data).mapM decodeProctitle
  return (proctitles, "audit log: " ++ pyReprStrList proctitles)

/- ## Observables and concrete scenario inputs used by the theorems -/

/-- Whether a finding of the given variant is present in a battery
result (`false` both when absent and when the generator raised). -/
def findingInResult (f : Finding) : Except PyExc (List Finding) → Bool
  | .ok l => decide (f ∈ l)
  | .error _ => false

/-- The payload variants of the marker Finding classes: classes whose
constructors pass neither evidence nor any variant-specific payload. -/
def markerPayload : Payload → Bool
  | .anonymousAuth => true
  | .exposedContainerLogs => true
  | .exposedExec => true
  | .exposedRun => true
  | .exposedPortForward => true
  | .exposedAttach => true
  | .exposedSystemLogs => true
  | _ => false

/-- Recogniser for the version-disclosure payload (the one
data-carrying variant modelled from the spec, whose evidence text the
spec does not state). -/
def versionPayload : Payload → Bool
  | .k8sVersionDisclosure _ _ _ => true
  | _ => false

/-- The evidence discipline the published findings actually satisfy:
a published finding lacks evidence exactly when it is a marker variant
or the (spec-modelled) version-disclosure variant. -/
def evidenceInvariant (f : Finding) : Prop :=
  f.evidence = none ↔ (markerPayload f.payload = true ∨ versionPayload f.payload = true)

/-- A response on which every probe heuristic is negative. -/
def quietR : Response :=
  { status_code := 404, text := "", jsonResult := .error .valueError }

/-- A 405 Method-Not-Allowed response (positive for the run probe). -/
def r405 : Response :=
  { status_code := 405, text := "", jsonResult := .error .valueError }

/-- A response whose body carries the attach marker. -/
def rAttach : Response :=
  { status_code := 200, text := "/cri/attach/abc", jsonResult := .error .valueError }

/-- A response whose body carries the filesystem-logs marker. -/
def rLogs : Response :=
  { status_code := 200, text := "<pre>syslog</pre>", jsonResult := .error .valueError }

/-- A 200 response with the container-logs probe's positive signal. -/
def rLogs200 : Response :=
  { status_code := 200, text := "some container log", jsonResult := .error .valueError }

/-- Battery responses for the partial-failure scenario: the exec probe
raises a transport error while the run, attach and logs probes would
all succeed with positive signals. -/
def rsExecFails : BatteryResponses :=
  { running_pods := .ok quietR, pprof_cmdline := .ok quietR, container_logs := .ok quietR,
    exec_probe := .error .transport, run_probe := .ok r405, port_forward := .ok quietR,
    attach_probe := .ok rAttach, logs_probe := .ok rLogs }

/-- Battery responses where the container-logs probe is positive
before the exec probe's transport error. -/
def rsExecFailsLogsOk : BatteryResponses :=
  { running_pods := .ok quietR, pprof_cmdline := .ok quietR, container_logs := .ok rLogs200,
    exec_probe := .error .transport, run_probe := .ok r405, port_forward := .ok quietR,
    attach_probe := .ok rAttach, logs_probe := .ok rLogs }

/-- Battery responses on which every probe is quiet. -/
def rsQuiet : BatteryResponses :=
  { running_pods := .ok quietR, pprof_cmdline := .ok quietR, container_logs := .ok quietR,
    exec_probe := .ok quietR, run_probe := .ok quietR, port_forward := .ok quietR,
    attach_probe := .ok quietR, logs_probe := .ok quietR }

/-- A healthz response with status 200 and an empty body. -/
def hz200empty : Response :=
  { status_code := 200, text := "", jsonResult := .error .valueError }

/-- A healthz response with status 200 and the body `ok`. -/
def hz200ok : Response :=
  { status_code := 200, text := "ok", jsonResult := .error .valueError }

/-- A Running pod in the `kube-system` namespace with one container. -/
def ksPod : PodItem :=
  { metadata := { name := "kube-dns", ns := "kube-system" },
    spec := { containers := [{ name := "dns", securityContext := none }] },
    status := { phase := "Running" } }

/-- A Pending pod in the `default` namespace with one container. -/
def defPendingPod : PodItem :=
  { metadata := { name := "myapp", ns := "default" },
    spec := { containers := [{ name := "app", securityContext := none }] },
    status := { phase := "Pending" } }

/-- A pod with one non-privileged and one privileged container. -/
def privPod1 : PodItem :=
  { metadata := { name := "p1", ns := "default" },
    spec := { containers := [{ name := "c0", securityContext := some { privileged := some false } },
                             { name := "c1", securityContext := some { privileged := some true } }] },
    status := { phase := "Running" } }

/-- A second pod with one privileged container. -/
def privPod2 : PodItem :=
  { metadata := { name := "p2", ns := "kube-system" },
    spec := { containers := [{ name := "c2", securityContext := some { privileged := some true } }] },
    status := { phase := "Running" } }

/-- A pods response that parses to a listing with the two privileged
pods above. -/
def podsPrivResp : Response :=
  { status_code := 200, text := "\x7b\"items\": [...]\x7d",
    jsonResult := .ok { items := some [privPod1, privPod2], truthy := true } }

/-- A secure-kubelet event with the anonymous-auth flag set. -/
def evAnon : SecureKubeletEvent :=
  { host := "10.0.0.1", port := 10250, secure := false, auth_token := "", anonymous_auth := true }

/-- The audit-log response carrying the spec's decoding example. -/
def auditResp : Response :=
  { status_code := 200, text := "type=PROCTITLE proctitle=2F62696E2F7368002D63",
    jsonResult := .error .valueError }

/- ## Helper lemmas -/

theorem ok_bind {α β : Type} (a : α) (f : α → Except PyExc β) :
    (Except.ok a >>= f) = f a := rfl

theorem error_bind {α β : Type} (e : PyExc) (f : α → Except PyExc β) :
    ((Except.error e : Except PyExc α) >>= f) = .error e := rfl

theorem pure_eq_ok {α : Type} (a : α) : (pure a : Except PyExc α) = .ok a := rfl

theorem mem_collectUntilErr {f : Finding} :
    ∀ {steps : List (Except PyExc (List Finding))}, f ∈ collectUntilErr steps →
      ∃ s ∈ steps, ∃ l, s = .ok l ∧ f ∈ l
  | [], h => by simp [collectUntilErr] at h
  | .error e :: rest, h => by simp [collectUntilErr] at h
  | .ok fs :: rest, h => by
    simp only [collectUntilErr, List.mem_append] at h
    rcases h with h | h
    · exact ⟨.ok fs, by simp, fs, rfl, h⟩
    · rcases mem_collectUntilErr h with ⟨s, hs, l, hl, hf⟩
      exact ⟨s, by simp [hs], l, hl, hf⟩

theorem step_running_pods_ok {rs : BatteryResponses} {l : List Finding}
    (h : step_running_pods rs = .ok l) : l = [] ∨ ∃ n, l = [exposedRunningPodsHandlerF n] := by
  unfold step_running_pods at h
  cases htr : test_running_pods rs.running_pods with
  | error e => rw [htr, error_bind] at h; exact absurd h (by simp)
  | ok rp =>
    rw [htr, ok_bind] at h
    match rp with
    | none =>
      simp only [pure_eq_ok, Except.ok.injEq] at h
      exact Or.inl h.symm
    | some j =>
      simp only at h
      split at h
      · cases hg : getItems j with
        | error e => rw [hg, error_bind] at h; exact absurd h (by simp)
        | ok items =>
          rw [hg, ok_bind] at h
          simp only [pure_eq_ok, Except.ok.injEq] at h
          exact Or.inr ⟨items.length, h.symm⟩
      · simp only [pure_eq_ok, Except.ok.injEq] at h
        exact Or.inl h.symm

theorem bool_step_ok {t : Except PyExc Bool} {F : Finding} {l : List Finding}
    (h : (t >>= fun b => pure (if b then [F] else [])) = .ok l) : l = [] ∨ l = [F] := by
  cases t with
  | error e => rw [error_bind] at h; exact absurd h (by simp)
  | ok b =>
    rw [ok_bind] at h
    simp only [pure_eq_ok, Except.ok.injEq] at h
    cases b
    · simp only [Bool.false_eq_true, if_false] at h
      exact Or.inl h.symm
    · simp only [if_true] at h
      exact Or.inr h.symm

theorem step_pprof_cmdline_ok {rs : BatteryResponses} {l : List Finding}
    (h : step_pprof_cmdline rs = .ok l) : l = [] ∨ ∃ s, l = [exposedKubeletCmdlineF s] := by
  unfold step_pprof_cmdline at h
  cases htr : test_pprof_cmdline rs.pprof_cmdline with
  | error e => rw [htr, error_bind] at h; exact absurd h (by simp)
  | ok c =>
    rw [htr, ok_bind] at h
    simp only [pure_eq_ok, Except.ok.injEq] at h
    split at h
    · exact Or.inr ⟨(c.getD ""), h.symm⟩
    · exact Or.inl h.symm

theorem step_container_logs_ok {rs : BatteryResponses} {l : List Finding}
    (h : step_container_logs rs = .ok l) : l = [] ∨ l = [exposedContainerLogsHandlerF] :=
  bool_step_ok (by rw [← h]; rfl)

theorem step_exec_ok {rs : BatteryResponses} {l : List Finding}
    (h : step_exec rs = .ok l) : l = [] ∨ l = [exposedExecHandlerF] :=
  bool_step_ok (by rw [← h]; rfl)

theorem step_run_ok {rs : BatteryResponses} {l : List Finding}
    (h : step_run rs = .ok l) : l = [] ∨ l = [exposedRunHandlerF] :=
  bool_step_ok (by rw [← h]; rfl)

theorem step_attach_ok {rs : BatteryResponses} {l : List Finding}
    (h : step_attach rs = .ok l) : l = [] ∨ l = [exposedAttachHandlerF] :=
  bool_step_ok (by rw [← h]; rfl)

theorem step_logs_ok {rs : BatteryResponses} {l : List Finding}
    (h : step_logs rs = .ok l) : l = [] ∨ l = [exposedSystemLogsF] :=
  bool_step_ok (by rw [← h]; rfl)

theorem test_port_forward_none {resp : Except PyExc Response} {b : Option Bool}
    (h : test_port_forward resp = .ok b) : b = none := by
  unfold test_port_forward at h
  cases resp with
  | error e => rw [error_bind] at h; exact absurd h (by simp)
  | ok r =>
    rw [ok_bind] at h
    simp only [pure_eq_ok, Except.ok.injEq] at h
    exact h.symm

theorem step_port_forward_ok {rs : BatteryResponses} {l : List Finding}
    (h : step_port_forward rs = .ok l) : l = [] := by
  unfold step_port_forward at h
  cases htp : test_port_forward rs.port_forward with
  | error e => rw [htp, error_bind] at h; exact absurd h (by simp)
  | ok b =>
    rw [htp, ok_bind] at h
    rw [test_port_forward_none htp] at h
    simp only [pure_eq_ok, Except.ok.injEq] at h
    exact h.symm

theorem step_exposed_pods_ok {ped : Option PodsJson} {l : List Finding}
    (h : step_exposed_pods ped = .ok l) : l = [] ∨ ∃ items, l = [exposedPodsHandlerF items] := by
  unfold step_exposed_pods at h
  split at h
  · simp only [Except.ok.injEq] at h
    exact Or.inl h.symm
  · next d =>
    split at h
    · cases hg : getItems d with
      | error e => rw [hg, error_bind] at h; exact absurd h (by simp)
      | ok items =>
        rw [hg, ok_bind] at h
        simp only [pure_eq_ok, Except.ok.injEq] at h
        exact Or.inr ⟨items, h.symm⟩
    · simp only [Except.ok.injEq] at h
      exact Or.inl h.symm

theorem filter_healthz_version (kv : Option String) :
    (versionFindings kv).filter isHealthzF = [] := by
  unfold versionFindings
  split <;> simp [isHealthzF, k8sVersionDisclosureF]

theorem filter_healthz_priv (priv : Option (List (String × String))) :
    (privFindings priv).filter isHealthzF = [] := by
  unfold privFindings
  rcases priv with _ | cs
  · simp
  · split <;> simp [isHealthzF, privilegedContainersF]

theorem filter_healthz_self (hz : Option String) :
    (healthzFindings hz).filter isHealthzF = healthzFindings hz := by
  unfold healthzFindings
  split <;> simp [isHealthzF, exposedHealthzHandlerF]

theorem filter_healthz_pods_step {ped : Option PodsJson} {l : List Finding}
    (h : step_exposed_pods ped = .ok l) : l.filter isHealthzF = [] := by
  rcases step_exposed_pods_ok h with rfl | ⟨items, rfl⟩ <;>
    simp [isHealthzF, exposedPodsHandlerF]

theorem filter_priv_version (kv : Option String) :
    (versionFindings kv).filter isPrivilegedF = [] := by
  unfold versionFindings
  split <;> simp [isPrivilegedF, k8sVersionDisclosureF]

theorem filter_priv_healthz (hz : Option String) :
    (healthzFindings hz).filter isPrivilegedF = [] := by
  unfold healthzFindings
  split <;> simp [isPrivilegedF, exposedHealthzHandlerF]

theorem filter_priv_self (priv : Option (List (String × String))) :
    (privFindings priv).filter isPrivilegedF = privFindings priv := by
  unfold privFindings
  rcases priv with _ | cs
  · simp
  · split <;> simp [isPrivilegedF, privilegedContainersF]

theorem filter_priv_pods_step {ped : Option PodsJson} {l : List Finding}
    (h : step_exposed_pods ped = .ok l) : l.filter isPrivilegedF = [] := by
  rcases step_exposed_pods_ok h with rfl | ⟨items, rfl⟩ <;>
    simp [isPrivilegedF, exposedPodsHandlerF]

/-- The eight battery steps of `test_handlers`, in call order. -/
def batterySteps (rs : BatteryResponses) : List (Except PyExc (List Finding)) :=
  [step_running_pods rs, step_pprof_cmdline rs, step_container_logs rs, step_exec rs,
   step_run rs, step_port_forward rs, step_attach rs, step_logs rs]

theorem battery_finding_cases {rs : BatteryResponses} {f : Finding}
    (h : f ∈ collectUntilErr (batterySteps rs)) :
    (∃ n, f = exposedRunningPodsHandlerF n) ∨ (∃ s, f = exposedKubeletCmdlineF s) ∨
      f = exposedContainerLogsHandlerF ∨ f = exposedExecHandlerF ∨ f = exposedRunHandlerF ∨
      f = exposedAttachHandlerF ∨ f = exposedSystemLogsF := by
  rcases mem_collectUntilErr h with ⟨s, hs, l, hl, hf⟩
  simp only [batterySteps, List.mem_cons, List.not_mem_nil, or_false] at hs
  rcases hs with rfl | rfl | rfl | rfl | rfl | rfl | rfl | rfl
  · rcases step_running_pods_ok hl with rfl | ⟨n, rfl⟩
    · exact absurd hf (by simp)
    · simp only [List.mem_singleton] at hf
      exact Or.inl ⟨n, hf⟩
  · rcases step_pprof_cmdline_ok hl with rfl | ⟨s, rfl⟩
    · exact absurd hf (by simp)
    · simp only [List.mem_singleton] at hf
      exact Or.inr (Or.inl ⟨s, hf⟩)
  · rcases step_container_logs_ok hl with rfl | rfl
    · exact absurd hf (by simp)
    · simp only [List.mem_singleton] at hf
      exact Or.inr (Or.inr (Or.inl hf))
  · rcases step_exec_ok hl with rfl | rfl
    · exact absurd hf (by simp)
    · simp only [List.mem_singleton] at hf
      exact Or.inr (Or.inr (Or.inr (Or.inl hf)))
  · rcases step_run_ok hl with rfl | rfl
    · exact absurd hf (by simp)
    · simp only [List.mem_singleton] at hf
      exact Or.inr (Or.inr (Or.inr (Or.inr (Or.inl hf))))
  · rw [step_port_forward_ok hl] at hf
    exact absurd hf (by simp)
  · rcases step_attach_ok hl with rfl | rfl
    · exact absurd hf (by simp)
    · simp only [List.mem_singleton] at hf
      exact Or.inr (Or.inr (Or.inr (Or.inr (Or.inr (Or.inl hf)))))
  · rcases step_logs_ok hl with rfl | rfl
    · exact absurd hf (by simp)
    · simp only [List.mem_singleton] at hf
      exact Or.inr (Or.inr (Or.inr (Or.inr (Or.inr (Or.inr hf)))))

theorem evidenceInvariant_battery {rs : BatteryResponses} {f : Finding}
    (h : f ∈ collectUntilErr (batterySteps rs)) : evidenceInvariant f := by
  rcases battery_finding_cases h with ⟨n, rfl⟩ | ⟨s, rfl⟩ | rfl | rfl | rfl | rfl | rfl <;>
    simp [evidenceInvariant, markerPayload, versionPayload, exposedRunningPodsHandlerF,
      exposedKubeletCmdlineF, exposedContainerLogsHandlerF, exposedExecHandlerF,
      exposedRunHandlerF, exposedAttachHandlerF, exposedSystemLogsF]

theorem evidenceInvariant_test_handlers {c : Bool} {ped : Option PodsJson}
    {rs : BatteryResponses} {l : List Finding} {f : Finding}
    (hth : test_handlers c ped rs = .ok l) (h : f ∈ l) : evidenceInvariant f := by
  unfold test_handlers at hth
  cases c with
  | true =>
    rw [if_pos rfl] at hth
    rw [pure_eq_ok, ok_bind] at hth
    simp only [pure_eq_ok, Except.ok.injEq] at hth
    rw [← hth] at h
    exact evidenceInvariant_battery (by simpa [batterySteps] using h)
  | false =>
    rw [if_neg (by simp)] at hth
    cases hg : get_random_pod ped with
    | error e => rw [hg, error_bind] at hth; exact absurd hth (by simp)
    | ok pod =>
      rw [hg, ok_bind] at hth
      cases pod with
      | none =>
        simp only [pure_eq_ok, Except.ok.injEq] at hth
        rw [← hth] at h
        exact absurd h (by simp)
      | some t =>
        simp only [pure_eq_ok, Except.ok.injEq] at hth
        rw [← hth] at h
        exact evidenceInvariant_battery (by simpa [batterySteps] using h)

theorem evidenceInvariant_version {kv : Option String} {f : Finding}
    (h : f ∈ versionFindings kv) : evidenceInvariant f := by
  unfold versionFindings at h
  split at h
  · simp only [List.mem_singleton] at h
    subst h
    simp [evidenceInvariant, markerPayload, versionPayload, k8sVersionDisclosureF]
  · exact absurd h (by simp)

theorem evidenceInvariant_priv {priv : Option (List (String × String))} {f : Finding}
    (h : f ∈ privFindings priv) : evidenceInvariant f := by
  unfold privFindings at h
  rcases priv with _ | (_ | ⟨p, cs⟩)
  · exact absurd h (by simp)
  · simp only [List.isEmpty_nil, if_true] at h
    exact absurd h (by simp)
  · simp only [List.isEmpty_cons, Bool.false_eq_true, if_false, List.mem_singleton] at h
    subst h
    simp [evidenceInvariant, markerPayload, versionPayload, privilegedContainersF]

theorem evidenceInvariant_healthz {hz : Option String} {f : Finding}
    (h : f ∈ healthzFindings hz) : evidenceInvariant f := by
  unfold healthzFindings at h
  split at h
  · simp only [List.mem_singleton] at h
    subst h
    simp [evidenceInvariant, markerPayload, versionPayload, exposedHealthzHandlerF]
  · exact absurd h (by simp)

theorem evidenceInvariant_pods_step {ped : Option PodsJson} {l : List Finding} {f : Finding}
    (hl : step_exposed_pods ped = .ok l) (h : f ∈ l) : evidenceInvariant f := by
  rcases step_exposed_pods_ok hl with rfl | ⟨items, rfl⟩
  · exact absurd h (by simp)
  · simp only [List.mem_singleton] at h
    subst h
    simp [evidenceInvariant, markerPayload, versionPayload, exposedPodsHandlerF]

theorem evidenceInvariant_anon {f : Finding} {b : Bool}
    (h : f ∈ if b then [anonymousAuthEnabledF] else []) : evidenceInvariant f := by
  split at h
  · simp only [List.mem_singleton] at h
    subst h
    simp [evidenceInvariant, markerPayload, versionPayload, anonymousAuthEnabledF]
  · exact absurd h (by simp)

theorem test_handlers_ok_cases {c : Bool} {ped : Option PodsJson} {rs : BatteryResponses}
    {l : List Finding} (hth : test_handlers c ped rs = .ok l) :
    l = [] ∨ l = collectUntilErr (batterySteps rs) := by
  unfold test_handlers at hth
  cases c with
  | true =>
    rw [if_pos rfl, pure_eq_ok, ok_bind] at hth
    simp only [pure_eq_ok, Except.ok.injEq] at hth
    exact Or.inr (by rw [← hth]; rfl)
  | false =>
    rw [if_neg (by simp)] at hth
    cases hg : get_random_pod ped with
    | error e => rw [hg, error_bind] at hth; exact absurd hth (by simp)
    | ok pod =>
      rw [hg, ok_bind] at hth
      cases pod with
      | none =>
        simp only [pure_eq_ok, Except.ok.injEq] at hth
        exact Or.inl hth.symm
      | some t =>
        simp only [pure_eq_ok, Except.ok.injEq] at hth
        exact Or.inr (by rw [← hth]; rfl)

theorem evidenceInvariant_readonly {a b c : Except PyExc Response} {f : Finding}
    (h : f ∈ (readonly_execute a b c).1) : evidenceInvariant f := by
  unfold readonly_execute at h
  cases h1 : get_pods_endpoint a with
  | error e => simp only [h1] at h; exact absurd h (by simp)
  | ok ped =>
    simp only [h1] at h
    cases h2 : ro_get_k8s_version b with
    | error e => simp only [h2] at h; exact absurd h (by simp)
    | ok kv =>
      simp only [h2] at h
      cases h3 : ro_find_privileged_containers ped with
      | error e => simp only [h3] at h; exact absurd h (by simp)
      | ok priv =>
        simp only [h3] at h
        cases h4 : check_healthz_endpoint c with
        | error e => simp only [h4] at h; exact absurd h (by simp)
        | ok hz =>
          simp only [h4] at h
          cases h5 : step_exposed_pods ped with
          | error e =>
            simp only [h5, List.mem_append] at h
            rcases h with (h | h) | h
            · exact evidenceInvariant_version h
            · exact evidenceInvariant_priv h
            · exact evidenceInvariant_healthz h
          | ok fs4 =>
            simp only [h5, List.mem_append] at h
            rcases h with ((h | h) | h) | h
            · exact evidenceInvariant_version h
            · exact evidenceInvariant_priv h
            · exact evidenceInvariant_healthz h
            · exact evidenceInvariant_pods_step h5 h

theorem evidenceInvariant_secure {ev : SecureKubeletEvent} {pr hr : Except PyExc Response}
    {cp : Bool} {rs : BatteryResponses} {f : Finding}
    (h : f ∈ (secure_execute ev pr hr cp rs).1) : evidenceInvariant f := by
  unfold secure_execute at h
  cases h1 : get_pods_endpoint pr with
  | error e =>
    simp only [h1] at h
    exact evidenceInvariant_anon h
  | ok ped =>
    simp only [h1] at h
    cases h2 : check_healthz_endpoint hr with
    | error e =>
      simp only [h2] at h
      exact evidenceInvariant_anon h
    | ok hz =>
      simp only [h2] at h
      cases h3 : step_exposed_pods ped with
      | error e =>
        simp only [h3] at h
        exact evidenceInvariant_anon h
      | ok podsF =>
        simp only [h3] at h
        cases h4 : test_handlers cp ped rs with
        | error e =>
          simp only [h4, List.mem_append] at h
          rcases h with (h | h) | h
          · exact evidenceInvariant_anon h
          · exact evidenceInvariant_pods_step h3 h
          · exact evidenceInvariant_healthz h
        | ok batteryF =>
          simp only [h4, List.mem_append] at h
          rcases h with ((h | h) | h) | h
          · exact evidenceInvariant_anon h
          · exact evidenceInvariant_pods_step h3 h
          · exact evidenceInvariant_healthz h
          · rcases test_handlers_ok_cases h4 with rfl | rfl
            · exact absurd h (by simp)
            · exact evidenceInvariant_battery h

/- ## Claim theorems -/

/-- C1 (counterexample): in a Secure-Port Debug-Handler Battery run
where the exec probe raises a transport error while the run probe
succeeds with its positive signal (status 405), the run yields no
findings at all — in particular no `ExposedRunHandler` finding — so a
transport failure in one probe does prevent the probes after it from
running and publishing. -/
theorem battery_exec_error_suppresses_run_finding :
    test_exec_container rsExecFails.exec_probe = .error .transport ∧
    test_run_container rsExecFails.run_probe = .ok true ∧
    test_handlers true none rsExecFails = .ok [] := by
  refine ⟨rfl, rfl, ?_⟩
  decide

/-- C1 (amended): an exception raised by a battery probe is caught at
the battery boundary: every finding yielded by the probes called
before the failing one (here: running-pods, pprof-cmdline and
container-logs before exec) is still delivered, and no probe after the
failing one runs, so the run output is exactly the earlier probes'
findings. -/
theorem battery_exception_keeps_earlier_findings (rs : BatteryResponses)
    (ped : Option PodsJson) (f1 f2 f3 : List Finding) (e : PyExc)
    (h1 : step_running_pods rs = .ok f1) (h2 : step_pprof_cmdline rs = .ok f2)
    (h3 : step_container_logs rs = .ok f3)
    (hexec : test_exec_container rs.exec_probe = .error e) :
    test_handlers true ped rs = .ok (f1 ++ f2 ++ f3) := by
  have hse : step_exec rs = .error e := by
    unfold step_exec
    rw [hexec, error_bind]
  unfold test_handlers
  rw [if_pos rfl, pure_eq_ok, ok_bind]
  rw [h1, h2, h3, hse]
  simp [collectUntilErr, pure_eq_ok, List.append_assoc]

/-- C1 (witness): an instantiation of the amended theorem at a
concrete battery run where the container-logs probe is positive before
the exec probe's transport error. -/
theorem battery_exception_keeps_earlier_findings_witness :
    test_handlers true none rsExecFailsLogsOk = .ok ([] ++ [] ++ [exposedContainerLogsHandlerF]) :=
  battery_exception_keeps_earlier_findings rsExecFailsLogsOk none [] [] [exposedContainerLogsHandlerF]
    .transport (by decide) (by decide) (by decide) (by decide)

/-- C2: the secure hunter's base path is assigned from a plain
(non-f-string) literal, so it is the constant text
`https://{self.event.host}:10250` for every event, and consequently
the pods, healthz and every Debug-Handler Battery request URL coincide
for any two events (given the same probing target). -/
theorem secure_hunter_urls_constant :
    ∀ (e1 e2 : SecureKubeletEvent) (pod : ProbeTarget),
      skPath e1 = "https://\x7bself.event.host\x7d:10250" ∧
      skPodsUrl e1 = skPodsUrl e2 ∧
      skHealthzUrl e1 = skHealthzUrl e2 ∧
      containerLogsUrl e1 pod = containerLogsUrl e2 pod ∧
      execUrl e1 pod = execUrl e2 pod ∧
      portForwardUrl e1 pod = portForwardUrl e2 pod ∧
      runUrl e1 = runUrl e2 ∧
      runningPodsUrl e1 = runningPodsUrl e2 ∧
      attachUrl e1 pod = attachUrl e2 pod ∧
      logsUrl e1 = logsUrl e2 ∧
      pprofCmdlineUrl e1 = pprofCmdlineUrl e2 :=
  fun _ _ _ => ⟨rfl, rfl, rfl, rfl, rfl, rfl, rfl, rfl, rfl, rfl, rfl⟩

/-- C3 (counterexample): a healthz response with status 200 and an
empty body yields no health finding (the prober tests Python string
truthiness, and the empty string is falsy), contradicting "if its
status is 200, the prober emits exactly one health finding". -/
theorem healthz_200_empty_body_yields_no_finding :
    hz200empty.status_code = 200 ∧
    (readonly_execute (.ok quietR) (.ok quietR) (.ok hz200empty)).1.filter isHealthzF = [] := by
  decide

/-- C3 (amended): for a health-endpoint response, the Read-Only
Prober emits exactly one health finding — whose status field is the
exact response body — iff the status is 200 and the body is non-empty;
otherwise (status ≠ 200, or a 200 with an empty body) it emits none. -/
theorem healthz_finding_iff_200_and_nonempty (pr mr : Except PyExc Response) (hr : Response)
    (ped : Option PodsJson) (kv : Option String) (priv : Option (List (String × String)))
    (fs4 : List Finding)
    (h1 : get_pods_endpoint pr = .ok ped) (h2 : ro_get_k8s_version mr = .ok kv)
    (h3 : ro_find_privileged_containers ped = .ok priv) (h4 : step_exposed_pods ped = .ok fs4) :
    (readonly_execute pr mr (.ok hr)).1.filter isHealthzF
      = if hr.status_code = 200 ∧ hr.text ≠ "" then [exposedHealthzHandlerF hr.text] else [] := by
  have hc : check_healthz_endpoint (.ok hr)
      = .ok (if hr.status_code = 200 then some hr.text else none) := rfl
  unfold readonly_execute
  simp only [h1, h2, h3, h4, hc]
  simp only [List.filter_append, filter_healthz_version, filter_healthz_priv,
    filter_healthz_self, filter_healthz_pods_step h4, List.nil_append, List.append_nil]
  unfold healthzFindings
  by_cases hs : hr.status_code = 200
  · by_cases ht : hr.text = "" <;>
      simp [hs, ht, truthyStrOrFalse]
  · simp [hs, truthyStrOrFalse]

/-- C3 (witness): the amended theorem instantiated at a 200 response
with the non-empty body `ok`, yielding exactly one health finding
carrying that body. -/
theorem healthz_finding_iff_200_and_nonempty_witness :
    (readonly_execute (.ok quietR) (.ok quietR) (.ok hz200ok)).1.filter isHealthzF
      = if hz200ok.status_code = 200 ∧ hz200ok.text ≠ "" then [exposedHealthzHandlerF hz200ok.text] else [] :=
  healthz_finding_iff_200_and_nonempty (.ok quietR) (.ok quietR) hz200ok none none none []
    (by decide) (by decide) (by decide) (by decide)

/-- C4 (code bug): on a listing with one Running `kube-system` pod and
one Pending `default` pod, the selector correctly skips the Pending
default pod and picks the kube-system pod, but then evaluates
`next(pod_data["spec"]["containers"], None)` — `next` applied to a
list, which is not an iterator — so it raises `TypeError` instead of
returning the pod's first container; the spec-modelled selector
returns the kube-system pod's first container as the claim states. -/
theorem get_random_pod_raises_typeerror :
    get_random_pod (some { items := some [ksPod, defPendingPod], truthy := true })
      = .error .typeError ∧
    spec_get_random_pod [ksPod, defPendingPod]
      = some { name := "kube-dns", container := "dns", pod_namespace := "kube-system" } := by
  decide

/-- C5 (counterexample): a transport error on the pods fetch escapes
`ReadOnlyKubeletPortHunter.execute` (which has no exception handling)
before any other fetch's findings can be yielded: the healthz fetch
would succeed with status 200 and body `ok`, yet the run delivers no
findings at all, contradicting "a failure of any one of them does not
prevent the others from executing or suppress their findings". -/
theorem pods_transport_error_suppresses_other_findings :
    check_healthz_endpoint (.ok hz200ok) = .ok (some "ok") ∧
    readonly_execute (.error .transport) (.ok quietR) (.ok hz200ok) = ([], some .transport) := by
  decide

/-- C5 (amended): the four operations of the Read-Only Prober run
sequentially; when none of them raises, each contributes its findings
independently of the outcomes of the others (an HTTP-level failure of
one never suppresses another's findings), but a raised exception —
e.g. a transport error — aborts the run at that point and, since every
fetch precedes every yield, suppresses all findings. -/
theorem readonly_run_decomposes (pr mr hr : Response) (ped : Option PodsJson)
    (kv : Option String) (priv : Option (List (String × String))) (hz : Option String)
    (fs4 : List Finding)
    (h1 : get_pods_endpoint (.ok pr) = .ok ped) (h2 : ro_get_k8s_version (.ok mr) = .ok kv)
    (h3 : ro_find_privileged_containers ped = .ok priv)
    (h4 : check_healthz_endpoint (.ok hr) = .ok hz) (h5 : step_exposed_pods ped = .ok fs4) :
    readonly_execute (.ok pr) (.ok mr) (.ok hr)
      = (versionFindings kv ++ privFindings priv ++ healthzFindings hz ++ fs4, none) := by
  unfold readonly_execute
  simp only [h1, h2, h3, h4, h5]

/-- C5 (witness): the amended theorem instantiated at a run where the
pods and metrics fetches find nothing and the healthz fetch succeeds. -/
theorem readonly_run_decomposes_witness :
    readonly_execute (.ok quietR) (.ok quietR) (.ok hz200ok)
      = (versionFindings none ++ privFindings none ++ healthzFindings (some "ok") ++ [], none) :=
  readonly_run_decomposes quietR quietR hz200ok none none none (some "ok") []
    (by decide) (by decide) (by decide) (by decide) (by decide)

/-- C6 (counterexample): the `AnonymousAuthEnabled` finding is
published by the Secure-Port Prober with neither evidence nor any
variant-specific payload, contradicting "every published Finding has
at least one of evidence, payload populated". -/
theorem anonymous_auth_published_bare :
    secure_execute evAnon (.ok quietR) (.ok quietR) true rsQuiet = ([anonymousAuthEnabledF], none) ∧
    anonymousAuthEnabledF.evidence = none ∧
    payloadPopulated anonymousAuthEnabledF.payload = false := by
  decide

/-- C6 (amended): every finding published by either prober obeys the
evidence discipline the constructors actually implement: it lacks
evidence exactly when it is one of the marker variants
(AnonymousAuthEnabled, ExposedContainerLogsHandler, ExposedExecHandler,
ExposedRunHandler, ExposedPortForwardHandler, ExposedAttachHandler,
ExposedSystemLogs) — which are published with neither evidence nor
payload data, evidence being attached only later by proof-of-exploit
hunters — or the spec-modelled version-disclosure finding, whose data
lives in its payload; every other published finding carries evidence. -/
theorem published_finding_evidence_discipline :
    (∀ (a b c : Except PyExc Response) (f : Finding),
      f ∈ (readonly_execute a b c).1 → evidenceInvariant f) ∧
    (∀ (ev : SecureKubeletEvent) (pr hr : Except PyExc Response) (cp : Bool)
      (rs : BatteryResponses) (f : Finding),
      f ∈ (secure_execute ev pr hr cp rs).1 → evidenceInvariant f) :=
  ⟨fun _ _ _ _ h => evidenceInvariant_readonly h,
   fun _ _ _ _ _ _ h => evidenceInvariant_secure h⟩

/-- C6 (witness): the discipline instantiated at a concrete secure
run publishing the anonymous-auth marker finding. -/
theorem published_finding_evidence_discipline_witness :
    evidenceInvariant anonymousAuthEnabledF :=
  published_finding_evidence_discipline.2 evAnon (.ok quietR) (.ok quietR) true rsQuiet
    anonymousAuthEnabledF (by decide)

/-- C7 (counterexample): a `kubernetes_build_info` line whose label
text does not split into `key=value` pairs makes the version probe
raise a `ValueError` (from unpacking `info.split("=")`), contradicting
"malformed labels yields no result rather than an error". -/
theorem malformed_label_raises_value_error :
    get_k8s_version "kubernetes_build_info\x7bfoo\x7d" = .error .valueError := by
  decide

set_option maxRecDepth 4096 in
/-- C7 (amended): the version probe scans line-by-line for a line
beginning with `kubernetes_build_info` and parses the `key="value"`
pairs inside the braces, returning the `gitVersion` value trimmed of
quotes (e.g. `v1.18.0`); absence of such a line yields no result, but
a label without exactly one `=` raises an error rather than yielding
no result. -/
theorem version_parse_characterisation :
    (∀ metrics : String,
      (∀ line ∈ splitCh '\n' metrics.data, isPrefixCh "kubernetes_build_info".data line = false) →
        get_k8s_version metrics = .ok none) ∧
    get_k8s_version "kubernetes_build_info\x7bgitVersion=\"v1.18.0\",buildDate=\"2020-01-01T00:00:00Z\"\x7d"
      = .ok (some "v1.18.0") ∧
    get_k8s_version "kubernetes_build_info\x7bgitVersion\x7d" = .error .valueError := by
  refine ⟨?_, by decide, by decide⟩
  intro metrics hlines
  unfold get_k8s_version
  have loop : ∀ lines : List (List Char),
      (∀ line ∈ lines, isPrefixCh "kubernetes_build_info".data line = false) →
        k8sVersionLoop lines = .ok none := by
    intro lines
    induction lines with
    | nil => intro; rfl
    | cons hd tl ih =>
      intro hall
      unfold k8sVersionLoop
      rw [hall hd (by simp)]
      simp only [Bool.false_eq_true, if_false]
      exact ih fun line hl => hall line (by simp [hl])
  exact loop _ hlines

/-- C7 (witness): the no-matching-line case of the amended theorem
instantiated at a two-line metrics document without the metric. -/
theorem version_parse_characterisation_witness :
    get_k8s_version "foo\nbar" = .ok none :=
  version_parse_characterisation.1 "foo\nbar" (by decide)

theorem privList_nonempty_iff (items : List PodItem) :
    (privList items).isEmpty = false ↔
      ∃ pod ∈ items, ∃ c ∈ pod.spec.containers, privTruthy c = true := by
  rw [show ((privList items).isEmpty = false) ↔ ∃ x, x ∈ privList items from by
    cases h : privList items <;> simp [h]]
  unfold privList
  constructor
  · rintro ⟨x, hx⟩
    rw [List.mem_flatMap] at hx
    obtain ⟨pod, hpod, hx⟩ := hx
    rw [List.mem_filterMap] at hx
    obtain ⟨c, hc, hcx⟩ := hx
    refine ⟨pod, hpod, c, hc, ?_⟩
    by_contra hne
    simp [hne] at hcx
  · rintro ⟨pod, hpod, c, hc, hct⟩
    exact ⟨(pod.metadata.name, c.name),
      List.mem_flatMap.mpr ⟨pod, hpod, List.mem_filterMap.mpr ⟨c, hc, by simp [hct]⟩⟩⟩

/-- C8: assuming the pods listing succeeded, the privileged-container
scan publishes a `PrivilegedContainers` finding iff some container
across all pods declares `securityContext.privileged == true`; the
published finding carries the full match list collected in
pod-then-container order, and its evidence names the first match of
that order and the total match count; an empty match list yields no
finding. -/
theorem privileged_scan_characterisation (pr mr : Except PyExc Response) (hr : Response)
    (d : PodsJson) (items : List PodItem) (kv : Option String)
    (h1 : get_pods_endpoint pr = .ok (some d)) (hd : d.truthy = true) (hi : d.items = some items)
    (h2 : ro_get_k8s_version mr = .ok kv) :
    ((readonly_execute pr mr (.ok hr)).1.filter isPrivilegedF
        = if (privList items).isEmpty then [] else [privilegedContainersF (privList items)]) ∧
    ((privList items).isEmpty = false ↔
      ∃ pod ∈ items, ∃ c ∈ pod.spec.containers, privTruthy c = true) ∧
    (privilegedContainersF (privList items)).evidence
      = some ("pod: " ++ ((privList items).headD ("", "")).1 ++ ", container: "
          ++ ((privList items).headD ("", "")).2 ++ ", count: "
          ++ toString (privList items).length) := by
  have hg : getItems d = .ok items := by unfold getItems; rw [hi]
  have hpriv : ro_find_privileged_containers (some d)
      = .ok (if (privList items).length > 0 then some (privList items) else none) := by
    unfold ro_find_privileged_containers
    dsimp only
    rw [if_pos hd, hg, ok_bind, pure_eq_ok]
  have hstep : step_exposed_pods (some d) = .ok [exposedPodsHandlerF items] := by
    unfold step_exposed_pods
    dsimp only
    rw [if_pos hd, hg, ok_bind, pure_eq_ok]
  have hc : check_healthz_endpoint (.ok hr)
      = .ok (if hr.status_code = 200 then some hr.text else none) := rfl
  refine ⟨?_, privList_nonempty_iff items, rfl⟩
  unfold readonly_execute
  simp only [h1, h2, hpriv, hc, hstep]
  simp only [List.filter_append, filter_priv_version, filter_priv_healthz,
    filter_priv_self, filter_priv_pods_step hstep, List.nil_append, List.append_nil]
  unfold privFindings
  cases h : privList items with
  | nil => simp [h]
  | cons a l => simp [h]

/-- C8 (witness): the characterisation instantiated at a listing with
two privileged containers across two pods: the finding carries both
matches and its evidence names the first (`p1`/`c1`) and the count 2. -/
theorem privileged_scan_characterisation_witness :
    ((readonly_execute (.ok podsPrivResp) (.ok quietR) (.ok quietR)).1.filter isPrivilegedF
        = if (privList [privPod1, privPod2]).isEmpty then []
          else [privilegedContainersF (privList [privPod1, privPod2])]) ∧
    ((privList [privPod1, privPod2]).isEmpty = false ↔
      ∃ pod ∈ [privPod1, privPod2], ∃ c ∈ pod.spec.containers, privTruthy c = true) ∧
    (privilegedContainersF (privList [privPod1, privPod2])).evidence
      = some ("pod: " ++ ((privList [privPod1, privPod2]).headD ("", "")).1 ++ ", container: "
          ++ ((privList [privPod1, privPod2]).headD ("", "")).2 ++ ", count: "
          ++ toString (privList [privPod1, privPod2]).length) :=
  privileged_scan_characterisation (.ok podsPrivResp) (.ok quietR) quietR
    { items := some [privPod1, privPod2], truthy := true } [privPod1, privPod2] none
    (by decide) (by decide) (by decide) (by decide)

/-- C9: whenever the audit-log proof completes, the list it attaches
as the event's `proctitles` field is exactly the per-capture decoding
(hex → bytes → UTF-8 text → null bytes to spaces) of every
`proctitle=` field matched in the fetched log text, and the evidence
is the f-string `audit log: ` followed by that same list's Python
rendering; in particular `2F62696E2F7368002D63` decodes to
`/bin/sh -c` (see the witness). -/
theorem system_logs_decode (ar : Except PyExc Response) (pts : List String) (ev : String)
    (h : prove_system_logs_execute ar = .ok (pts, ev)) :
    (∃ r, ar = .ok r ∧ (findallProctitles r.text.data).mapM decodeProctitle = .ok pts) ∧
    ev = "audit log: " ++ pyReprStrList pts := by
  cases ar with
  | error e =>
    unfold prove_system_logs_execute at h
    rw [error_bind] at h
    exact absurd h (by simp)
  | ok r =>
    unfold prove_system_logs_execute at h
    rw [ok_bind] at h
    cases hm : (findallProctitles r.text.data).mapM decodeProctitle with
    | error e => rw [hm, error_bind] at h; exact absurd h (by simp)
    | ok l =>
      rw [hm, ok_bind] at h
      simp only [pure_eq_ok, Except.ok.injEq, Prod.mk.injEq] at h
      obtain ⟨hpts, hev⟩ := h
      subst hpts
      exact ⟨⟨r, rfl, hm⟩, hev.symm⟩

/-- C9 (witness): the decoding applied to an audit log containing
`proctitle=2F62696E2F7368002D63`: the single capture decodes to
`/bin/sh -c` and the decoded list appears in both the proctitles field
and the evidence. -/
theorem system_logs_decode_witness :
    decodeProctitle "2F62696E2F7368002D63".data = .ok "/bin/sh -c" ∧
    ((∃ r, (Except.ok auditResp : Except PyExc Response) = .ok r ∧
        (findallProctitles r.text.data).mapM decodeProctitle = .ok ["/bin/sh -c"]) ∧
      "audit log: " ++ pyReprStrList ["/bin/sh -c"]
        = "audit log: " ++ pyReprStrList ["/bin/sh -c"]) :=
  ⟨by decide,
   system_logs_decode (.ok auditResp) ["/bin/sh -c"]
     ("audit log: " ++ pyReprStrList ["/bin/sh -c"]) (by decide)⟩

/-- C10: on every Secure-Port Debug-Handler Battery run — whatever
the target, listing and per-probe responses, including any status and
body the port-forward endpoint may return — no `ExposedPortForwardHandler`
finding is ever published: `test_port_forward` discards its comparison
and returns `None`, which is falsy. -/
theorem port_forward_never_published :
    ∀ (c : Bool) (ped : Option PodsJson) (rs : BatteryResponses),
      findingInResult exposedPortForwardHandlerF (test_handlers c ped rs) = false := by
  intro c ped rs
  unfold findingInResult
  cases hth : test_handlers c ped rs with
  | error e => rfl
  | ok l =>
    simp only [decide_eq_false_iff_not]
    intro hf
    rcases test_handlers_ok_cases hth with rfl | rfl
    · exact absurd hf (by simp)
    · rcases battery_finding_cases hf with ⟨n, h⟩ | ⟨s, h⟩ | h | h | h | h | h <;>
        simp [exposedPortForwardHandlerF, exposedRunningPodsHandlerF, exposedKubeletCmdlineF,
          exposedContainerLogsHandlerF, exposedExecHandlerF, exposedRunHandlerF,
          exposedAttachHandlerF, exposedSystemLogsF, Finding.mk.injEq] at h
